import Mathlib

/-!
Shallow embedding of the Spotify integration service
(`SpotifyService` in the repository's integration layer) and proofs of
the specification claims about it.

Modelling conventions:
* JavaScript numbers that the service stores in `tokenExpiration` are
  modelled by `JSNum` (either `NaN` or an integer number of epoch
  milliseconds); `Date.now()` is passed in explicitly as an `Int`.
* `localStorage` is modelled by a record with one `Option String` field
  per key the service touches (`getItem` returns `null` for a missing
  key, modelled as `none`).
* JavaScript truthiness of a nullable string (`!x` is true for `null`
  and for the empty string) is `truthyOptStr`; truthiness of the
  nullable numeric field is `jsNumTruthy`.
* Network interactions are passed in as explicit `FetchOutcome` values:
  either a network error (the awaited `fetch` rejects) or a response
  with an HTTP status and an optional parsed JSON body (`none` means
  `response.json()` threw).
* Code paths that `throw` are translated as `Except String` values; a
  surrounding `try/catch` becomes a `match` on that `Except`.
-/

namespace SpotifyVinyl

/-- A JavaScript number as stored in the `tokenExpiration` field: either
`NaN` (e.g. from `parseInt` on an unparseable string) or an integer. -/
inductive JSNum where
  | nan : JSNum
  | int (n : Int) : JSNum
deriving DecidableEq, Repr

/-- JS truthiness of a nullable number: `null`, `NaN` and `0` are falsy. -/
def jsNumTruthy : Option JSNum → Bool
  | none => false
  | some .nan => false
  | some (.int n) => n != 0

/-- JS truthiness of a nullable string: `null` and `""` are falsy. -/
def truthyOptStr : Option String → Bool
  | none => false
  | some s => s != ""

/-- The `localStorage` keys the service reads and writes. -/
structure LocalStorage where
  spotify_access_token : Option String
  spotify_token_expiration : Option String
  spotify_refresh_token : Option String
  spotify_code_verifier : Option String
  spotify_auth_state : Option String
  spotify_just_logged_out : Option String
  spotify_force_login : Option String
deriving DecidableEq, Repr

/-- The in-memory token fields of the service. -/
structure ServiceAuth where
  accessToken : Option String
  refreshToken : Option String
  tokenExpiration : Option JSNum
deriving DecidableEq, Repr

/-- Characters `parseInt` skips as leading whitespace. -/
def isJsSpace (c : Char) : Bool :=
  c = ' ' || c = '\t' || c = '\n' || c = '\r'

/-- Value of a string of decimal digits. -/
def digitsVal (l : List Char) : Nat :=
  l.foldl (fun a c => a * 10 + (c.toNat - 48)) 0

/-- JavaScript `parseInt(s, 10)`: skip leading whitespace, read an
optional sign, then the longest prefix of decimal digits; `NaN` if that
prefix is empty. -/
def jsParseInt (s : String) : JSNum :=
  let l := s.toList.dropWhile isJsSpace
  let core : List Char → Bool → JSNum := fun ds neg =>
    let digits := ds.takeWhile (fun c => c.isDigit)
    if digits.isEmpty then .nan
    else .int (if neg then -(digitsVal digits : Int) else (digitsVal digits : Int))
  match l with
  | '-' :: rest => core rest true
  | '+' :: rest => core rest false
  | rest => core rest false

/-- The token-restoration logic of the service constructor: if both the
stored access token and the stored expiration string are truthy, the
access token is restored verbatim, the expiration is `parseInt` of the
stored string, and the refresh token is whatever is stored (possibly
`null`); otherwise all three fields stay `null`. -/
def constructorRestore (ls : LocalStorage) : ServiceAuth :=
  if truthyOptStr ls.spotify_access_token && truthyOptStr ls.spotify_token_expiration then
    { accessToken := ls.spotify_access_token
      tokenExpiration := some (jsParseInt (ls.spotify_token_expiration.getD ""))
      refreshToken := ls.spotify_refresh_token }
  else
    { accessToken := none, refreshToken := none, tokenExpiration := none }

/-- The service method `isTokenExpired`: a falsy `tokenExpiration`
(`null`, `NaN` or `0`) is expired; otherwise the token counts as expired
five minutes (300000 ms) before its actual expiration. -/
def isTokenExpired (tokenExpiration : Option JSNum) (now : Int) : Bool :=
  if !(jsNumTruthy tokenExpiration) then true
  else
    match tokenExpiration with
    | some (.int e) => decide (now > e - 300000)
    | _ => true

/-- The service method `isLoggedIn`: a truthy access token that is not
expired. -/
def isLoggedIn (auth : ServiceAuth) (now : Int) : Bool :=
  truthyOptStr auth.accessToken && !(isTokenExpired auth.tokenExpiration now)

/-- The private `clearTokens` method: removes the five auth-related
persisted keys and nulls the three in-memory fields. -/
def clearTokens (_auth : ServiceAuth) (ls : LocalStorage) : ServiceAuth × LocalStorage :=
  ( { accessToken := none, refreshToken := none, tokenExpiration := none }
  , { ls with
      spotify_access_token := none
      spotify_token_expiration := none
      spotify_refresh_token := none
      spotify_code_verifier := none
      spotify_auth_state := none } )

/-- Outcome of an awaited `fetch`: either the promise rejects (network
error) or a response arrives with an HTTP `status` and an optional
parsed JSON `body` (`none` when `response.json()` throws). -/
inductive FetchOutcome (α : Type) where
  | networkError : FetchOutcome α
  | response (status : Nat) (body : Option α) : FetchOutcome α
deriving DecidableEq, Repr

/-- The `response.ok` predicate: status in the range 200-299. -/
def statusOk (status : Nat) : Bool :=
  200 ≤ status && status < 300

/-- Fields of the token-endpoint JSON body the service consumes. -/
structure TokenData where
  access_token : String
  refresh_token : Option String
  expires_in : Int
deriving DecidableEq, Repr

/-- Result of `handleCallback`: the returned boolean, the final
in-memory auth fields and `localStorage`, and whether a token-exchange
request was issued to the token endpoint. -/
structure CallbackResult where
  success : Bool
  auth : ServiceAuth
  ls : LocalStorage
  exchanged : Bool
deriving DecidableEq, Repr

/-- The service method `handleCallback`. Inputs: the `code` and `state`
query parameters of the callback URL, the session-storage fallback copy
of the code verifier, the outcome of the (hypothetical) token-exchange
request, and the current time. Mirrors the source: the state check
(`!state || state !== storedState`) fails first; then the
just-logged-out flag is consumed; then, if `code` and a code verifier
are truthy, the exchange is performed and on success the token fields
and storage are updated and the transient PKCE artifacts removed; any
exchange failure is caught and `false` returned. -/
def handleCallback (auth : ServiceAuth) (ls : LocalStorage)
    (code cbState : Option String) (sessionVerifier : Option String)
    (outcome : FetchOutcome TokenData) (now : Int) : CallbackResult :=
  let storedState := ls.spotify_auth_state
  let codeVerifier :=
    if truthyOptStr ls.spotify_code_verifier then ls.spotify_code_verifier
    else sessionVerifier
  if !(truthyOptStr cbState) || cbState != storedState then
    { success := false, auth := auth, ls := ls, exchanged := false }
  else
    let ls1 :=
      if ls.spotify_just_logged_out == some "true" then
        { ls with spotify_just_logged_out := none }
      else ls
    if truthyOptStr code && truthyOptStr codeVerifier then
      match outcome with
      | .networkError => { success := false, auth := auth, ls := ls1, exchanged := true }
      | .response status body =>
        if !(statusOk status) then
          { success := false, auth := auth, ls := ls1, exchanged := true }
        else
          match body with
          | none => { success := false, auth := auth, ls := ls1, exchanged := true }
          | some td =>
            let expirationTime := now + td.expires_in * 1000
            let auth2 : ServiceAuth :=
              { accessToken := some td.access_token
                refreshToken := td.refresh_token
                tokenExpiration := some (.int expirationTime) }
            let ls2 :=
              { ls1 with
                spotify_access_token := some td.access_token
                spotify_token_expiration := some (toString expirationTime) }
            let ls3 :=
              if truthyOptStr auth2.refreshToken then
                { ls2 with spotify_refresh_token := auth2.refreshToken }
              else ls2
            let ls4 :=
              { ls3 with spotify_code_verifier := none, spotify_auth_state := none }
            { success := true, auth := auth2, ls := ls4, exchanged := true }
    else
      { success := false, auth := auth, ls := ls1, exchanged := false }

/-- Result of `refreshAccessToken`: the returned boolean, final state,
and whether a refresh request was issued. -/
structure RefreshResult where
  success : Bool
  auth : ServiceAuth
  ls : LocalStorage
  requested : Bool
deriving DecidableEq, Repr

/-- The service method `refreshAccessToken`: with a falsy refresh token
it returns `false` immediately (no request); otherwise it exchanges
`grant_type=refresh_token`; a truthy `refresh_token` in the response
replaces the stored one (rotation), otherwise the old one is retained;
the expiry is set to `now + expires_in * 1000`; any HTTP or parse
failure is caught and `false` returned with no field modified. -/
def refreshAccessToken (auth : ServiceAuth) (ls : LocalStorage)
    (outcome : FetchOutcome TokenData) (now : Int) : RefreshResult :=
  if !(truthyOptStr auth.refreshToken) then
    { success := false, auth := auth, ls := ls, requested := false }
  else
    match outcome with
    | .networkError => { success := false, auth := auth, ls := ls, requested := true }
    | .response status body =>
      if !(statusOk status) then
        { success := false, auth := auth, ls := ls, requested := true }
      else
        match body with
        | none => { success := false, auth := auth, ls := ls, requested := true }
        | some d =>
          let auth1 := { auth with accessToken := some d.access_token }
          let rotate := truthyOptStr d.refresh_token
          let auth2 := if rotate then { auth1 with refreshToken := d.refresh_token } else auth1
          let ls1 := if rotate then { ls with spotify_refresh_token := d.refresh_token } else ls
          let expirationTime := now + d.expires_in * 1000
          let auth3 := { auth2 with tokenExpiration := some (.int expirationTime) }
          let ls2 :=
            { ls1 with
              spotify_access_token := some d.access_token
              spotify_token_expiration := some (toString expirationTime) }
          { success := true, auth := auth3, ls := ls2, requested := true }

/-- A playlist object as the UI consumes it; `ptype` embeds the `type`
field of the JS object. -/
structure Playlist where
  pid : String
  name : String
  description : String
  imageUrls : List String
  tracksTotal : Int
  ptype : String
  uri : String
deriving DecidableEq, Repr

/-- Fields of the saved-tracks response body the service consumes. -/
structure SavedTracksData where
  total : Int
deriving DecidableEq, Repr

/-- The pseudo-playlist object `getUserSavedTracks` synthesizes for the
Liked Songs collection. -/
def likedSongsPlaylist (total : Int) : Playlist :=
  { pid := "liked-songs"
    name := "Liked Songs"
    description := "Your Liked Songs collection"
    imageUrls := ["https://misc.scdn.co/liked-songs/liked-songs-640.png"]
    tracksTotal := total
    ptype := "liked-songs"
    uri := "spotify:user:liked-songs" }

/-- Result of `getUserSavedTracks`: the returned value (`none` embeds
the JS `null`) and the final state. -/
structure SavedResult where
  value : Option Playlist
  auth : ServiceAuth
  ls : LocalStorage
deriving DecidableEq, Repr

/-- The `try` block of `getUserSavedTracks`, with each `throw` site an
explicit `.error`. A 401 clears the tokens and returns `null` normally;
any other non-ok status throws; a JSON parse failure throws. -/
def savedTracksBody (auth : ServiceAuth) (ls : LocalStorage)
    (outcome : FetchOutcome SavedTracksData) : Except String SavedResult :=
  match outcome with
  | .networkError => .error "fetch rejected"
  | .response status body =>
    if !(statusOk status) then
      if status == 401 then
        let (a2, l2) := clearTokens auth ls
        .ok { value := none, auth := a2, ls := l2 }
      else .error "Error fetching saved tracks"
    else
      match body with
      | none => .error "json parse"
      | some d => .ok { value := some (likedSongsPlaylist d.total), auth := auth, ls := ls }

/-- The service method `getUserSavedTracks`: not-logged-in short-circuit
outside the `try`, then the body with its `catch` returning `null`. -/
def getUserSavedTracks (auth : ServiceAuth) (ls : LocalStorage) (now : Int)
    (outcome : FetchOutcome SavedTracksData) : SavedResult :=
  if !(truthyOptStr auth.accessToken) || !(isLoggedIn auth now) then
    { value := none, auth := auth, ls := ls }
  else
    match savedTracksBody auth ls outcome with
    | .ok r => r
    | .error _ => { value := none, auth := auth, ls := ls }

/-- Result of `getUserPlaylists`: the returned array and final state. -/
structure PlaylistsResult where
  items : List Playlist
  auth : ServiceAuth
  ls : LocalStorage
deriving DecidableEq, Repr

/-- The `try` block of `getUserPlaylists`, with each `throw` site an
explicit `.error`: a 401 on the playlists fetch clears tokens and
returns `[]` normally; other non-ok statuses and parse failures throw;
on success the saved-tracks call runs and, when it yields a value, that
value is prepended to the fetched items. -/
def playlistsBody (auth : ServiceAuth) (ls : LocalStorage) (now : Int)
    (outcome : FetchOutcome (List Playlist))
    (savedOutcome : FetchOutcome SavedTracksData) : Except String PlaylistsResult :=
  match outcome with
  | .networkError => .error "fetch rejected"
  | .response status body =>
    if !(statusOk status) then
      if status == 401 then
        let (a2, l2) := clearTokens auth ls
        .ok { items := [], auth := a2, ls := l2 }
      else .error "Error fetching playlists"
    else
      match body with
      | none => .error "json parse"
      | some items =>
        let saved := getUserSavedTracks auth ls now savedOutcome
        match saved.value with
        | some liked => .ok { items := liked :: items, auth := saved.auth, ls := saved.ls }
        | none => .ok { items := items, auth := saved.auth, ls := saved.ls }

/-- The service method `getUserPlaylists`: not-logged-in short-circuit
outside the `try`, then the body with its `catch` returning `[]`. The
`Except` result type records whether an exception escapes to the caller
(it never does: every path is `.ok`). -/
def getUserPlaylists (auth : ServiceAuth) (ls : LocalStorage) (now : Int)
    (outcome : FetchOutcome (List Playlist))
    (savedOutcome : FetchOutcome SavedTracksData) : Except String PlaylistsResult :=
  if !(truthyOptStr auth.accessToken) || !(isLoggedIn auth now) then
    .ok { items := [], auth := auth, ls := ls }
  else
    match playlistsBody auth ls now outcome savedOutcome with
    | .ok r => .ok r
    | .error _ => .ok { items := [], auth := auth, ls := ls }

/-- The `Except`-typed variant of `getUserSavedTracks`, recording
whether an exception escapes to the caller (it never does). -/
def getUserSavedTracksE (auth : ServiceAuth) (ls : LocalStorage) (now : Int)
    (outcome : FetchOutcome SavedTracksData) : Except String SavedResult :=
  .ok (getUserSavedTracks auth ls now outcome)

/-- The SDK playback-state object; only the `paused` flag is consulted
by `togglePlayback`. -/
structure PlaybackState where
  paused : Bool
deriving DecidableEq, Repr

/-- The full mutable state of the service instance that the player
lifecycle and transport methods can observe or modify. The SDK player
handle and the pending initialization promise are identified by opaque
numeric ids. -/
structure ServiceState where
  auth : ServiceAuth
  ls : LocalStorage
  player : Option Nat
  deviceId : Option String
  initializationPromise : Option Nat
  connectionAttempts : Nat
deriving DecidableEq, Repr

/-- The service method `togglePlayback`: returns at once when no player
exists; otherwise reads the current SDK state and resumes when paused,
pauses otherwise, catching any SDK error. The `Except` result records
whether an exception escapes to the caller; each SDK call outcome is an
input. -/
def togglePlayback (st : ServiceState)
    (stateOutcome : Except String (Option PlaybackState))
    (resumeOutcome pauseOutcome : Except String Unit) : Except String ServiceState :=
  if st.player.isNone then .ok st
  else
    match stateOutcome with
    | .error _ => .ok st
    | .ok s =>
      let wasPaused := match s with
        | some ps => ps.paused
        | none => false
      match (if wasPaused then resumeOutcome else pauseOutcome) with
      | .error _ => .ok st
      | .ok _ => .ok st

/-- The service method `nextTrack`: returns at once when no player
exists; otherwise calls through to the SDK, catching any error. -/
def nextTrack (st : ServiceState) (callOutcome : Except String Unit) :
    Except String ServiceState :=
  if st.player.isNone then .ok st
  else
    match callOutcome with
    | .error _ => .ok st
    | .ok _ => .ok st

/-- The service method `previousTrack`: returns at once when no player
exists; otherwise calls through to the SDK, catching any error. -/
def previousTrack (st : ServiceState) (callOutcome : Except String Unit) :
    Except String ServiceState :=
  if st.player.isNone then .ok st
  else
    match callOutcome with
    | .error _ => .ok st
    | .ok _ => .ok st

/-- The service method `setVolume`: returns at once when no player
exists; otherwise clamps the volume to [0, 1] and calls through to the
SDK, catching any error. The clamped value passed to the SDK is also
returned for inspection. -/
def setVolume (st : ServiceState) (volumePercent : ℚ)
    (callOutcome : Except String Unit) : Except String (ServiceState × Option ℚ) :=
  if st.player.isNone then .ok (st, none)
  else
    let volume := max 0 (min 1 volumePercent)
    match callOutcome with
    | .error _ => .ok (st, some volume)
    | .ok _ => .ok (st, some volume)

/-- What `initializePlayer` returns: either an existing or freshly
stored promise (by id), or a resolved-false result from the
token-expiry redirect paths (`return false`). -/
inductive InitReturn where
  | promise (id : Nat) : InitReturn
  | immediateFalse : InitReturn
deriving DecidableEq, Repr

/-- Result of one synchronous run of `initializePlayer` up to its
`return`: the returned value, the state after the synchronous part, and
how many `new window.Spotify.Player(...)` constructions it performed. -/
structure InitResult where
  ret : InitReturn
  st : ServiceState
  constructions : Nat
deriving DecidableEq, Repr

/-- The synchronous effects of `login()` on the service state: resets
the connection attempts, stores a fresh code verifier and state value,
and consumes the force-login flag (the page then navigates away). -/
def loginEffect (st : ServiceState) (freshVerifier freshState : String) : ServiceState :=
  let ls1 :=
    { st.ls with
      spotify_code_verifier := some freshVerifier
      spotify_auth_state := some freshState }
  let ls2 :=
    if ls1.spotify_force_login == some "true" then
      { ls1 with spotify_force_login := none }
    else ls1
  { st with connectionAttempts := 0, ls := ls2 }

/-- The service method `initializePlayer`, up to its synchronous
`return`. If an initialization promise is already stored it is returned
unchanged (single-flight guard). Otherwise the expiry paths run (refresh
with a refresh token; clear-and-login when refresh fails or no refresh
token exists), then the attempt counter increments and the promise
executor runs synchronously: with no SDK loaded it resolves `false` (the
promise field still ends up holding the fresh promise, which the outer
assignment stores after the executor has run); with the SDK loaded it
constructs one player client and stores the fresh promise. -/
def initializePlayer (st : ServiceState) (now : Int) (sdkLoaded : Bool)
    (refreshOutcome : FetchOutcome TokenData)
    (freshVerifier freshState : String)
    (freshPromiseId freshPlayerId : Nat) : InitResult :=
  match st.initializationPromise with
  | some p => { ret := .promise p, st := st, constructions := 0 }
  | none =>
    let proceed : ServiceState → InitResult := fun st1 =>
      let st2 := { st1 with connectionAttempts := st1.connectionAttempts + 1 }
      if !sdkLoaded then
        { ret := .promise freshPromiseId
          st := { st2 with initializationPromise := some freshPromiseId }
          constructions := 0 }
      else
        { ret := .promise freshPromiseId
          st := { st2 with
                  player := some freshPlayerId
                  initializationPromise := some freshPromiseId }
          constructions := 1 }
    if isTokenExpired st.auth.tokenExpiration now then
      if truthyOptStr st.auth.refreshToken then
        let r := refreshAccessToken st.auth st.ls refreshOutcome now
        if r.success then
          proceed { st with auth := r.auth, ls := r.ls }
        else
          let (a2, l2) := clearTokens r.auth r.ls
          let st2 := loginEffect { st with auth := a2, ls := l2 } freshVerifier freshState
          { ret := .immediateFalse, st := st2, constructions := 0 }
      else
        let (a2, l2) := clearTokens st.auth st.ls
        let st2 := loginEffect { st with auth := a2, ls := l2 } freshVerifier freshState
        { ret := .immediateFalse, st := st2, constructions := 0 }
    else
      proceed st

/-- The standard base64 alphabet used by `btoa`. -/
def stdAlphabet : List Char :=
  String.toList "ABCDEFGHIJKLMNOPQRSTUVWXYZabcdefghijklmnopqrstuvwxyz0123456789+/"

/-- The base64url alphabet (RFC 4648 section 5). -/
def urlAlphabet : List Char :=
  String.toList "ABCDEFGHIJKLMNOPQRSTUVWXYZabcdefghijklmnopqrstuvwxyz0123456789-_"

/-- Character at index `n` of the standard base64 alphabet. -/
def b64Char (n : Nat) : Char := stdAlphabet.getD n 'A'

/-- Character at index `n` of the base64url alphabet. -/
def urlChar (n : Nat) : Char := urlAlphabet.getD n 'A'

/-- The `btoa` encoding of a byte sequence: standard base64 with `=`
padding, processing three input bytes into four output characters. -/
def btoaEncode : List Nat → List Char
  | [] => []
  | [b1] => [b64Char (b1 / 4), b64Char (b1 % 4 * 16), '=', '=']
  | [b1, b2] => [b64Char (b1 / 4), b64Char (b1 % 4 * 16 + b2 / 16), b64Char (b2 % 16 * 4), '=']
  | b1 :: b2 :: b3 :: rest =>
    b64Char (b1 / 4) :: b64Char (b1 % 4 * 16 + b2 / 16) ::
    b64Char (b2 % 16 * 4 + b3 / 64) :: b64Char (b3 % 64) :: btoaEncode rest

/-- Unpadded base64url encoding of a byte sequence, written directly
from the specification's words (url-safe alphabet, no padding). -/
def base64UrlEncode : List Nat → List Char
  | [] => []
  | [b1] => [urlChar (b1 / 4), urlChar (b1 % 4 * 16)]
  | [b1, b2] => [urlChar (b1 / 4), urlChar (b1 % 4 * 16 + b2 / 16), urlChar (b2 % 16 * 4)]
  | b1 :: b2 :: b3 :: rest =>
    urlChar (b1 / 4) :: urlChar (b1 % 4 * 16 + b2 / 16) ::
    urlChar (b2 % 16 * 4 + b3 / 64) :: urlChar (b3 % 64) :: base64UrlEncode rest

/-- The first `replace` pass of `generateCodeChallenge`: drop all `=`. -/
def stripEq (l : List Char) : List Char := l.filter (fun c => c != '=')

/-- The character map of the second `replace` pass: `+` becomes `-`. -/
def p2dChar (c : Char) : Char := if c == '+' then '-' else c

/-- The character map of the third `replace` pass: `/` becomes `_`. -/
def s2uChar (c : Char) : Char := if c == '/' then '_' else c

/-- The second `replace` pass applied to the whole string. -/
def plusToDash (l : List Char) : List Char := l.map p2dChar

/-- The third `replace` pass applied to the whole string. -/
def slashToUnderscore (l : List Char) : List Char := l.map s2uChar

/-- The helper `generateCodeChallenge` applied to the digest bytes the
Web Crypto API returns for the verifier: `btoa` of the byte string,
then the three `replace` passes. The SHA-256 digest itself is produced
by the external `crypto.subtle.digest` primitive, so it enters the
model as the byte list `digest`. -/
def generateCodeChallenge (digest : List Nat) : String :=
  String.mk (slashToUnderscore (plusToDash (stripEq (btoaEncode digest))))

/-- The unpadded base64url encoding as a string, the form the
specification prescribes for the challenge. -/
def base64UrlNoPad (digest : List Nat) : String :=
  String.mk (base64UrlEncode digest)

/-- The query parameters `login()` places on the authorization URL. -/
structure AuthParams where
  client_id : String
  response_type : String
  redirect_uri : String
  code_challenge_method : String
  code_challenge : String
  state : String
  scope : String
deriving DecidableEq, Repr

/-- The hardcoded client id of the application. -/
def SPOTIFY_CLIENT_ID : String := "d0469a1618e4427b87de47779818f74c"

/-- The fixed scope list requested at login. -/
def SCOPES : List String :=
  [ "user-read-private", "user-read-email", "playlist-read-private",
    "playlist-read-collaborative", "streaming", "user-read-playback-state",
    "user-modify-playback-state", "user-read-currently-playing", "user-library-read" ]

/-- The authorization parameters `login()` builds: response type
`code`, challenge method `S256`, and the code challenge derived from
the digest of the freshly generated verifier. -/
def loginAuthParams (digest : List Nat) (state redirectUri : String) : AuthParams :=
  { client_id := SPOTIFY_CLIENT_ID
    response_type := "code"
    redirect_uri := redirectUri
    code_challenge_method := "S256"
    code_challenge := generateCodeChallenge digest
    state := state
    scope := String.intercalate " " SCOPES }

/-- A playlists fetch outcome on which the `try` block cannot reach the
success return: network error, non-2xx status, or unparseable body. -/
def playlistsFetchFailed (outcome : FetchOutcome (List Playlist)) : Bool :=
  match outcome with
  | .networkError => true
  | .response status body => !(statusOk status) || body.isNone

/-- A saved-tracks fetch outcome on which the `try` block cannot reach
the success return. -/
def savedFetchFailed (outcome : FetchOutcome SavedTracksData) : Bool :=
  match outcome with
  | .networkError => true
  | .response status body => !(statusOk status) || body.isNone

/-- A concrete logged-in auth state. At time 0 this token is valid. -/
def exAuth : ServiceAuth :=
  { accessToken := some "tok"
    refreshToken := some "ref"
    tokenExpiration := some (.int 2000000000) }

/-- A concrete populated `localStorage`. -/
def exLs : LocalStorage :=
  { spotify_access_token := some "tok"
    spotify_token_expiration := some "2000000000"
    spotify_refresh_token := some "ref"
    spotify_code_verifier := some "ver"
    spotify_auth_state := some "st0"
    spotify_just_logged_out := none
    spotify_force_login := none }

/-- A persisted state whose expiration string does not parse. -/
def exLsBadExp : LocalStorage :=
  { exLs with spotify_token_expiration := some "abc" }

/-- A service state with an initialization already pending (promise id 5). -/
def exStPending : ServiceState :=
  { auth := exAuth, ls := exLs, player := none, deviceId := none
    initializationPromise := some 5, connectionAttempts := 1 }

/-- A service state with no pending initialization and no player. -/
def exStIdle : ServiceState :=
  { auth := exAuth, ls := exLs, player := none, deviceId := none
    initializationPromise := none, connectionAttempts := 0 }


/-- Filtering out `=` keeps any character that is not `=`. -/
theorem stripEq_cons_of_ne (c : Char) (l : List Char) (h : c ≠ '=') :
    stripEq (c :: l) = c :: stripEq l := by
  simp [stripEq, h]

/-- Every standard base64 alphabet character is not `=`, and the two
replace passes turn it into the corresponding base64url character. -/
theorem b64Char_props : ∀ n, n < 64 → b64Char n ≠ '=' ∧ s2uChar (p2dChar (b64Char n)) = urlChar n := by
  decide

/-- The `btoa`-then-replace chain of `generateCodeChallenge` computes
exactly the unpadded base64url encoding, for byte inputs. -/
theorem encode_chain_eq : ∀ (l : List Nat), (∀ b ∈ l, b < 256) →
    slashToUnderscore (plusToDash (stripEq (btoaEncode l))) = base64UrlEncode l
  | [], _ => by
    simp [btoaEncode, base64UrlEncode, stripEq, plusToDash, slashToUnderscore]
  | [b1], h => by
    have hb1 : b1 < 256 := h b1 (by simp)
    obtain ⟨hne1, hmap1⟩ := b64Char_props (b1 / 4) (by omega)
    obtain ⟨hne2, hmap2⟩ := b64Char_props (b1 % 4 * 16) (by omega)
    simp [btoaEncode, base64UrlEncode, stripEq, plusToDash, slashToUnderscore,
      hne1, hne2, hmap1, hmap2]
  | [b1, b2], h => by
    have hb1 : b1 < 256 := h b1 (by simp)
    have hb2 : b2 < 256 := h b2 (by simp)
    obtain ⟨hne1, hmap1⟩ := b64Char_props (b1 / 4) (by omega)
    obtain ⟨hne2, hmap2⟩ := b64Char_props (b1 % 4 * 16 + b2 / 16) (by omega)
    obtain ⟨hne3, hmap3⟩ := b64Char_props (b2 % 16 * 4) (by omega)
    simp [btoaEncode, base64UrlEncode, stripEq, plusToDash, slashToUnderscore,
      hne1, hne2, hne3, hmap1, hmap2, hmap3]
  | b1 :: b2 :: b3 :: rest, h => by
    have hb1 : b1 < 256 := h b1 (by simp)
    have hb2 : b2 < 256 := h b2 (by simp)
    have hb3 : b3 < 256 := h b3 (by simp)
    have ih := encode_chain_eq rest (fun b hb => h b (by simp [hb]))
    obtain ⟨hne1, hmap1⟩ := b64Char_props (b1 / 4) (by omega)
    obtain ⟨hne2, hmap2⟩ := b64Char_props (b1 % 4 * 16 + b2 / 16) (by omega)
    obtain ⟨hne3, hmap3⟩ := b64Char_props (b2 % 16 * 4 + b3 / 64) (by omega)
    obtain ⟨hne4, hmap4⟩ := b64Char_props (b3 % 64) (by omega)
    rw [btoaEncode, base64UrlEncode,
      stripEq_cons_of_ne _ _ hne1, stripEq_cons_of_ne _ _ hne2,
      stripEq_cons_of_ne _ _ hne3, stripEq_cons_of_ne _ _ hne4]
    simp only [plusToDash, slashToUnderscore, List.map_cons] at ih ⊢
    rw [hmap1, hmap2, hmap3, hmap4, ih]

/-- C8: for every verifier, the code challenge that `login()` places in
the authorization URL equals the unpadded base64url encoding of the
SHA-256 digest of the verifier's UTF-8 bytes. The digest is produced by
the external `crypto.subtle.digest` primitive, so the theorem
quantifies over its output `digest` (a byte list, each byte below 256,
as `Uint8Array` guarantees); this covers every verifier string. -/
theorem generateCodeChallenge_is_base64url (digest : List Nat)
    (h : ∀ b ∈ digest, b < 256) :
    generateCodeChallenge digest = base64UrlNoPad digest ∧
    ∀ st ru, (loginAuthParams digest st ru).code_challenge = base64UrlNoPad digest := by
  have he := encode_chain_eq digest h
  refine ⟨?_, ?_⟩
  · simpa [generateCodeChallenge, base64UrlNoPad] using congrArg String.mk he
  · intro st ru
    simpa [loginAuthParams, generateCodeChallenge, base64UrlNoPad] using congrArg String.mk he

/-- C8 witness: the challenge of a concrete 3-byte digest. -/
theorem generateCodeChallenge_is_base64url_w :
    generateCodeChallenge [0, 1, 250] = base64UrlNoPad [0, 1, 250] :=
  (generateCodeChallenge_is_base64url [0, 1, 250] (by decide)).1

/-- C3: with an integer expiry stored and a nonnegative clock,
`isTokenExpired` returns true exactly when `now > expiresAt - 300000`;
in particular an expiry 301000 ms ahead is not expired and one
299000 ms ahead is expired. -/
theorem isTokenExpired_boundary (now e : Int) (h : 0 ≤ now) :
    (isTokenExpired (some (.int e)) now = true ↔ now > e - 300000) ∧
    isTokenExpired (some (.int (now + 301000))) now = false ∧
    isTokenExpired (some (.int (now + 299000))) now = true := by
  refine ⟨?_, ?_, ?_⟩
  · by_cases he : e = 0
    · subst he
      simp [isTokenExpired, jsNumTruthy]
      omega
    · simp [isTokenExpired, jsNumTruthy, he]
  · have hne : now + 301000 ≠ 0 := by omega
    simp [isTokenExpired, jsNumTruthy, hne]
    omega
  · have hne : now + 299000 ≠ 0 := by omega
    simp [isTokenExpired, jsNumTruthy, hne]
    omega

/-- C3 witness: the boundary at `now = 0`, `e = 1`. -/
theorem isTokenExpired_boundary_w :
    ((isTokenExpired (some (.int 1)) 0 = true ↔ (0 : Int) > 1 - 300000) ∧
     isTokenExpired (some (.int (0 + 301000))) 0 = false ∧
     isTokenExpired (some (.int (0 + 299000))) 0 = true) :=
  isTokenExpired_boundary 0 1 (by decide)

/-- C1: a callback whose `state` parameter is absent or differs from the
stored `spotify_auth_state` returns `false`, issues no token-exchange
request, and leaves the in-memory token fields and every persisted key
untouched. -/
theorem handleCallback_state_mismatch (auth : ServiceAuth) (ls : LocalStorage)
    (code cbState sessionVerifier : Option String)
    (outcome : FetchOutcome TokenData) (now : Int)
    (h : cbState = none ∨ cbState ≠ ls.spotify_auth_state) :
    handleCallback auth ls code cbState sessionVerifier outcome now =
      { success := false, auth := auth, ls := ls, exchanged := false } := by
  have hcond : (!(truthyOptStr cbState) || cbState != ls.spotify_auth_state) = true := by
    rcases h with h | h
    · subst h; rfl
    · simp [h]
  unfold handleCallback
  simp only [hcond, if_true]

/-- C1 witness: a concrete mismatching `state`. -/
theorem handleCallback_state_mismatch_w :
    handleCallback exAuth exLs (some "c") (some "evil") none .networkError 0 =
      { success := false, auth := exAuth, ls := exLs, exchanged := false } :=
  handleCallback_state_mismatch exAuth exLs (some "c") (some "evil") none .networkError 0
    (Or.inr (by decide))

/-- C7: `refreshAccessToken` with no stored refresh token returns false
immediately without issuing a request; on a successful exchange, a
returned (truthy) `refresh_token` replaces the stored one, an absent
one leaves it unchanged, and the expiry (in memory and persisted)
becomes `now + expires_in * 1000`. Presence of a rotation token is
modelled as a non-empty string, matching the JS truthiness test
`if (data.refresh_token)`. -/
theorem refreshAccessToken_rotation (auth : ServiceAuth) (ls : LocalStorage)
    (outcome : FetchOutcome TokenData) (now : Int) :
    (auth.refreshToken = none →
      refreshAccessToken auth ls outcome now =
        { success := false, auth := auth, ls := ls, requested := false }) ∧
    (∀ status d, truthyOptStr auth.refreshToken = true →
      outcome = .response status (some d) → statusOk status = true →
      (refreshAccessToken auth ls outcome now).success = true ∧
      (∀ rt, d.refresh_token = some rt → rt ≠ "" →
        (refreshAccessToken auth ls outcome now).auth.refreshToken = some rt ∧
        (refreshAccessToken auth ls outcome now).ls.spotify_refresh_token = some rt) ∧
      (d.refresh_token = none →
        (refreshAccessToken auth ls outcome now).auth.refreshToken = auth.refreshToken) ∧
      (refreshAccessToken auth ls outcome now).auth.tokenExpiration =
        some (.int (now + d.expires_in * 1000)) ∧
      (refreshAccessToken auth ls outcome now).ls.spotify_token_expiration =
        some (toString (now + d.expires_in * 1000))) := by
  constructor
  · intro h
    simp [refreshAccessToken, h, truthyOptStr]
  · intro status d htr hout hok
    subst hout
    refine ⟨?_, ?_, ?_, ?_, ?_⟩
    · simp [refreshAccessToken, htr, hok]
    · intro rt hrt hne
      have htr2 : truthyOptStr (some rt) = true := by simp [truthyOptStr, hne]
      constructor
      · simp [refreshAccessToken, htr, hok, hrt, htr2]
      · simp [refreshAccessToken, htr, hok, hrt, htr2]
    · intro hrt
      have htr2 : truthyOptStr d.refresh_token = false := by simp [truthyOptStr, hrt]
      simp [refreshAccessToken, htr, hok, htr2]
    · by_cases htr2 : truthyOptStr d.refresh_token <;>
        simp [refreshAccessToken, htr, hok, htr2]
    · by_cases htr2 : truthyOptStr d.refresh_token <;>
        simp [refreshAccessToken, htr, hok, htr2]

/-- C7 witness: no refresh token stored means immediate failure. -/
theorem refreshAccessToken_rotation_w :
    refreshAccessToken ⟨some "tok", none, some (.int 2000000000)⟩ exLs .networkError 0 =
      { success := false
        auth := ⟨some "tok", none, some (.int 2000000000)⟩
        ls := exLs
        requested := false } :=
  (refreshAccessToken_rotation ⟨some "tok", none, some (.int 2000000000)⟩ exLs .networkError 0).1 rfl

/-- C4 counterexample: with a persisted access token and an expiration
string that does not parse to a number, the constructor DOES restore the
access-token field (the claim says no token is restored). -/
theorem constructorRestore_unparseable_cx :
    jsParseInt "abc" = .nan ∧
    (constructorRestore exLsBadExp).accessToken = some "tok" ∧
    ¬((constructorRestore exLsBadExp).accessToken = none) := by
  refine ⟨by decide, by decide, by decide⟩

/-- C4 (amended): when the persisted expiry is missing nothing is
restored; when the access token and expiry are both present (truthy)
but the expiry does not parse to a number, the access-token field is
restored verbatim while the expiration becomes NaN, so the token counts
as expired and `isLoggedIn()` is false. -/
theorem constructorRestore_unparseable (ls : LocalStorage) (now : Int) :
    (ls.spotify_token_expiration = none →
      constructorRestore ls =
        { accessToken := none, refreshToken := none, tokenExpiration := none }) ∧
    (∀ t e, ls.spotify_access_token = some t → t ≠ "" →
      ls.spotify_token_expiration = some e → e ≠ "" →
      jsParseInt e = .nan →
      (constructorRestore ls).accessToken = some t ∧
      (constructorRestore ls).tokenExpiration = some .nan ∧
      isLoggedIn (constructorRestore ls) now = false) := by
  constructor
  · intro h
    simp [constructorRestore, h, truthyOptStr]
  · intro t e ht htne he hene hparse
    have h1 : truthyOptStr (some t) = true := by simp [truthyOptStr, htne]
    have h2 : truthyOptStr (some e) = true := by simp [truthyOptStr, hene]
    have hrest : constructorRestore ls =
        { accessToken := some t, refreshToken := ls.spotify_refresh_token,
          tokenExpiration := some .nan } := by
      simp [constructorRestore, ht, he, h1, h2, hparse]
    refine ⟨by simp [hrest], by simp [hrest], ?_⟩
    simp [hrest, isLoggedIn, isTokenExpired, jsNumTruthy]

/-- C4 witness: the amended statement at the concrete unparseable
persisted state. -/
theorem constructorRestore_unparseable_w :
    (constructorRestore exLsBadExp).accessToken = some "tok" ∧
    (constructorRestore exLsBadExp).tokenExpiration = some .nan ∧
    isLoggedIn (constructorRestore exLsBadExp) 0 = false :=
  (constructorRestore_unparseable exLsBadExp 0).2 "tok" "abc" rfl (by decide) rfl
    (by decide) (by decide)

/-- C2: while an initialization promise is stored, every further call
to `initializePlayer` returns that very promise and leaves the state
(in particular the SDK player handle) untouched, performing zero player
constructions; consequently a second call issued right after a first
one that reached construction yields the same promise and a total of
exactly one construction. -/
theorem initializePlayer_single_flight :
    (∀ (st : ServiceState) (p : Nat) (now : Int) (sdk : Bool)
       (ro : FetchOutcome TokenData) (v s : String) (fid pid : Nat),
      st.initializationPromise = some p →
      initializePlayer st now sdk ro v s fid pid =
        { ret := .promise p, st := st, constructions := 0 }) ∧
    (∀ (st : ServiceState) (now now2 : Int)
       (ro ro2 : FetchOutcome TokenData) (v s v2 s2 : String)
       (fid pid fid2 pid2 : Nat),
      st.initializationPromise = none →
      isTokenExpired st.auth.tokenExpiration now = false →
      (initializePlayer st now true ro v s fid pid).constructions = 1 ∧
      (initializePlayer (initializePlayer st now true ro v s fid pid).st
          now2 true ro2 v2 s2 fid2 pid2).constructions = 0 ∧
      (initializePlayer (initializePlayer st now true ro v s fid pid).st
          now2 true ro2 v2 s2 fid2 pid2).ret =
        (initializePlayer st now true ro v s fid pid).ret ∧
      (initializePlayer (initializePlayer st now true ro v s fid pid).st
          now2 true ro2 v2 s2 fid2 pid2).st =
        (initializePlayer st now true ro v s fid pid).st) := by
  constructor
  · intro st p now sdk ro v s fid pid h
    simp [initializePlayer, h]
  · intro st now now2 ro ro2 v s v2 s2 fid pid fid2 pid2 hnone hval
    have h1 : initializePlayer st now true ro v s fid pid =
        { ret := .promise fid
          st := { st with
                  connectionAttempts := st.connectionAttempts + 1
                  player := some pid
                  initializationPromise := some fid }
          constructions := 1 } := by
      simp [initializePlayer, hnone, hval]
    rw [h1]
    simp [initializePlayer]

/-- C2 witness: a call on a state with promise id 5 pending returns
promise 5 unchanged, and the two-call sequence from the idle state
performs exactly one construction. -/
theorem initializePlayer_single_flight_w :
    initializePlayer exStPending 0 true .networkError "v" "s" 7 8 =
      { ret := .promise 5, st := exStPending, constructions := 0 } ∧
    (initializePlayer exStIdle 0 true .networkError "v" "s" 7 8).constructions = 1 ∧
    (initializePlayer (initializePlayer exStIdle 0 true .networkError "v" "s" 7 8).st
        1 true .networkError "v2" "s2" 9 10).constructions = 0 :=
  ⟨initializePlayer_single_flight.1 exStPending 5 0 true .networkError "v" "s" 7 8 rfl,
   (initializePlayer_single_flight.2 exStIdle 0 1 .networkError .networkError
      "v" "s" "v2" "s2" 7 8 9 10 rfl (by decide)).1,
   (initializePlayer_single_flight.2 exStIdle 0 1 .networkError .networkError
      "v" "s" "v2" "s2" 7 8 9 10 rfl (by decide)).2.1⟩

/-- C9: the four transport operations never let an exception escape to
the caller, and whenever no SDK player exists they return immediately
with the service state unchanged. -/
theorem transport_ops_safe (st : ServiceState)
    (stateOutcome : Except String (Option PlaybackState))
    (resumeOutcome pauseOutcome nextOutcome prevOutcome volOutcome : Except String Unit)
    (v : ℚ) :
    ((togglePlayback st stateOutcome resumeOutcome pauseOutcome).isOk = true ∧
     (nextTrack st nextOutcome).isOk = true ∧
     (previousTrack st prevOutcome).isOk = true ∧
     (setVolume st v volOutcome).isOk = true) ∧
    (st.player = none →
      togglePlayback st stateOutcome resumeOutcome pauseOutcome = .ok st ∧
      nextTrack st nextOutcome = .ok st ∧
      previousTrack st prevOutcome = .ok st ∧
      setVolume st v volOutcome = .ok (st, none)) := by
  constructor
  · refine ⟨?_, ?_, ?_, ?_⟩
    · unfold togglePlayback
      by_cases hp : st.player.isNone
      · simp [hp, Except.isOk, Except.toBool]
      · cases stateOutcome with
        | error e => simp [hp, Except.isOk, Except.toBool]
        | ok s =>
          simp only [hp]
          cases hb : (if (match s with | some ps => ps.paused | none => false) then
              resumeOutcome else pauseOutcome) with
          | error e => simp [hb, Except.isOk, Except.toBool]
          | ok u => simp [hb, Except.isOk, Except.toBool]
    · unfold nextTrack
      by_cases hp : st.player.isNone
      · simp [hp, Except.isOk, Except.toBool]
      · cases nextOutcome <;> simp [hp, Except.isOk, Except.toBool]
    · unfold previousTrack
      by_cases hp : st.player.isNone
      · simp [hp, Except.isOk, Except.toBool]
      · cases prevOutcome <;> simp [hp, Except.isOk, Except.toBool]
    · unfold setVolume
      by_cases hp : st.player.isNone
      · simp [hp, Except.isOk, Except.toBool]
      · cases volOutcome <;> simp [hp, Except.isOk, Except.toBool]
  · intro h
    have hp : st.player.isNone = true := by simp [h]
    refine ⟨?_, ?_, ?_, ?_⟩
    · simp [togglePlayback, hp]
    · simp [nextTrack, hp]
    · simp [previousTrack, hp]
    · simp [setVolume, hp]

/-- C9 witness: on the idle state (no player) each operation is the
identity and throws nothing. -/
theorem transport_ops_safe_w :
    togglePlayback exStIdle (.error "sdk") (.ok ()) (.ok ()) = .ok exStIdle ∧
    nextTrack exStIdle (.error "sdk") = .ok exStIdle ∧
    previousTrack exStIdle (.error "sdk") = .ok exStIdle ∧
    setVolume exStIdle 2 (.error "sdk") = .ok (exStIdle, none) :=
  (transport_ops_safe exStIdle (.error "sdk") (.ok ()) (.ok ()) (.error "sdk")
    (.error "sdk") (.error "sdk") 2).2 rfl

/-- Any `.ok` result the saved-tracks try block produces on a failed
fetch outcome carries a `null` value. -/
theorem savedTracksBody_failed (auth : ServiceAuth) (ls : LocalStorage)
    (o : FetchOutcome SavedTracksData) (hf : savedFetchFailed o = true)
    (r : SavedResult) (hr : savedTracksBody auth ls o = .ok r) : r.value = none := by
  rcases o with _ | ⟨s, b⟩
  · simp [savedTracksBody] at hr
  · simp only [savedFetchFailed] at hf
    by_cases hsok : statusOk s
    · have hb : b = none := by
        rcases b with _ | d
        · rfl
        · simp [hsok] at hf
      subst hb
      simp [savedTracksBody, hsok] at hr
    · rcases b with _ | d <;>
      · revert hr
        simp only [savedTracksBody, hsok, Bool.not_false, if_true]
        split
        · intro hr
          cases hr
          rfl
        · intro hr
          cases hr

/-- On a not-logged-in state or a failed fetch outcome,
`getUserSavedTracks` returns `null`. -/
theorem getUserSavedTracks_failure (auth : ServiceAuth) (ls : LocalStorage) (now : Int)
    (o : FetchOutcome SavedTracksData)
    (h : isLoggedIn auth now = false ∨ savedFetchFailed o = true) :
    (getUserSavedTracks auth ls now o).value = none := by
  rcases h with hl | hf
  · simp [getUserSavedTracks, hl]
  · unfold getUserSavedTracks
    split
    · rfl
    · cases hres : savedTracksBody auth ls o with
      | ok r => simpa [hres] using savedTracksBody_failed auth ls o hf r hres
      | error e => simp [hres]

/-- Any `.ok` result the playlists try block produces on a failed fetch
outcome carries an empty item list. -/
theorem playlistsBody_failed (auth : ServiceAuth) (ls : LocalStorage) (now : Int)
    (o : FetchOutcome (List Playlist)) (so : FetchOutcome SavedTracksData)
    (hf : playlistsFetchFailed o = true)
    (r : PlaylistsResult) (hr : playlistsBody auth ls now o so = .ok r) : r.items = [] := by
  rcases o with _ | ⟨s, b⟩
  · simp [playlistsBody] at hr
  · simp only [playlistsFetchFailed] at hf
    by_cases hsok : statusOk s
    · have hb : b = none := by
        rcases b with _ | d
        · rfl
        · simp [hsok] at hf
      subst hb
      simp [playlistsBody, hsok] at hr
    · rcases b with _ | d <;>
      · revert hr
        simp only [playlistsBody, hsok, Bool.not_false, if_true]
        split
        · intro hr
          cases hr
          rfl
        · intro hr
          cases hr

/-- C5: when the playlists fetch succeeds while logged in, the returned
array starts with the synthesized Liked Songs pseudo-playlist (whose
`type` is `"liked-songs"`) followed by the fetched items unchanged if
the saved-tracks fetch also succeeds, and equals the fetched items
exactly (no liked-songs element synthesized) when the saved-tracks call
yields `null`. -/
theorem getUserPlaylists_liked_songs (auth : ServiceAuth) (ls : LocalStorage)
    (now : Int) (items : List Playlist) (status : Nat)
    (savedOutcome : FetchOutcome SavedTracksData)
    (hlog : isLoggedIn auth now = true) (hok : statusOk status = true) :
    (∀ s d, statusOk s = true → savedOutcome = .response s (some d) →
      getUserPlaylists auth ls now (.response status (some items)) savedOutcome =
        .ok { items := likedSongsPlaylist d.total :: items, auth := auth, ls := ls } ∧
      (likedSongsPlaylist d.total).ptype = "liked-songs") ∧
    ((getUserSavedTracks auth ls now savedOutcome).value = none →
      ∃ a2 l2,
        getUserPlaylists auth ls now (.response status (some items)) savedOutcome =
          .ok { items := items, auth := a2, ls := l2 }) := by
  have ht : truthyOptStr auth.accessToken = true := by
    have h2 := hlog
    simp only [isLoggedIn, Bool.and_eq_true] at h2
    exact h2.1
  constructor
  · intro s d hsok hout
    subst hout
    refine ⟨?_, rfl⟩
    simp [getUserPlaylists, playlistsBody, getUserSavedTracks, savedTracksBody,
      ht, hlog, hok, hsok]
  · intro hnone
    refine ⟨(getUserSavedTracks auth ls now savedOutcome).auth,
      (getUserSavedTracks auth ls now savedOutcome).ls, ?_⟩
    simp [getUserPlaylists, playlistsBody, ht, hlog, hok, hnone]

/-- C5 witness: a concrete successful pair of fetches, and a concrete
failed saved-tracks fetch. -/
theorem getUserPlaylists_liked_songs_w :
    getUserPlaylists exAuth exLs 0 (.response 200 (some []))
        (.response 200 (some { total := 42 })) =
      .ok { items := [likedSongsPlaylist 42], auth := exAuth, ls := exLs } ∧
    (likedSongsPlaylist 42).ptype = "liked-songs" :=
  (getUserPlaylists_liked_songs exAuth exLs 0 [] 200 (.response 200 (some { total := 42 }))
    (by decide) (by decide)).1 200 { total := 42 } (by decide) rfl

/-- C6: while logged in, a 401 response to the playlists fetch or to
the saved-tracks fetch clears the in-memory access token and expiry and
the persisted keys, and the operation returns `[]` respectively `null`
without throwing. -/
theorem fetch_401_clears_tokens (auth : ServiceAuth) (ls : LocalStorage) (now : Int)
    (b : Option (List Playlist)) (b2 : Option SavedTracksData)
    (savedOutcome : FetchOutcome SavedTracksData)
    (hlog : isLoggedIn auth now = true) :
    getUserPlaylists auth ls now (.response 401 b) savedOutcome =
      .ok { items := [], auth := (clearTokens auth ls).1, ls := (clearTokens auth ls).2 } ∧
    getUserSavedTracksE auth ls now (.response 401 b2) =
      .ok { value := none, auth := (clearTokens auth ls).1, ls := (clearTokens auth ls).2 } ∧
    (clearTokens auth ls).1.accessToken = none ∧
    (clearTokens auth ls).1.tokenExpiration = none ∧
    (clearTokens auth ls).2.spotify_access_token = none ∧
    (clearTokens auth ls).2.spotify_token_expiration = none := by
  have ht : truthyOptStr auth.accessToken = true := by
    have h2 := hlog
    simp only [isLoggedIn, Bool.and_eq_true] at h2
    exact h2.1
  have h401 : statusOk 401 = false := by decide
  refine ⟨?_, ?_, rfl, rfl, rfl, rfl⟩
  · simp [getUserPlaylists, playlistsBody, ht, hlog, h401, clearTokens]
  · simp [getUserSavedTracksE, getUserSavedTracks, savedTracksBody, ht, hlog, h401,
      clearTokens]

/-- C6 witness: the concrete logged-in state receiving 401s. -/
theorem fetch_401_clears_tokens_w :
    getUserPlaylists exAuth exLs 0 (.response 401 none) .networkError =
      .ok { items := [], auth := (clearTokens exAuth exLs).1, ls := (clearTokens exAuth exLs).2 } ∧
    getUserSavedTracksE exAuth exLs 0 (.response 401 none) =
      .ok { value := none, auth := (clearTokens exAuth exLs).1, ls := (clearTokens exAuth exLs).2 } :=
  ⟨(fetch_401_clears_tokens exAuth exLs 0 none none .networkError (by decide)).1,
   (fetch_401_clears_tokens exAuth exLs 0 none none .networkError (by decide)).2.1⟩

/-- C10: `getUserPlaylists` and `getUserSavedTracks` let no exception
escape on any fetch outcome, and on every failure path (not logged in,
network error, non-2xx status, unparseable body) they return the empty
array respectively `null`. -/
theorem getUserPlaylists_never_throws (auth : ServiceAuth) (ls : LocalStorage)
    (now : Int) (outcome : FetchOutcome (List Playlist))
    (savedOutcome : FetchOutcome SavedTracksData) :
    (∃ r, getUserPlaylists auth ls now outcome savedOutcome = .ok r) ∧
    (∃ r2, getUserSavedTracksE auth ls now savedOutcome = .ok r2) ∧
    ((isLoggedIn auth now = false ∨ playlistsFetchFailed outcome = true) →
      ∃ a2 l2, getUserPlaylists auth ls now outcome savedOutcome =
        .ok { items := [], auth := a2, ls := l2 }) ∧
    ((isLoggedIn auth now = false ∨ savedFetchFailed savedOutcome = true) →
      (getUserSavedTracks auth ls now savedOutcome).value = none) := by
  refine ⟨?_, ⟨_, rfl⟩, ?_, ?_⟩
  · unfold getUserPlaylists
    split
    · exact ⟨_, rfl⟩
    · cases h : playlistsBody auth ls now outcome savedOutcome with
      | ok r => exact ⟨r, by simp [h]⟩
      | error e => exact ⟨{ items := [], auth := auth, ls := ls }, by simp [h]⟩
  · intro h
    rcases h with hl | hf
    · exact ⟨auth, ls, by simp [getUserPlaylists, hl]⟩
    · unfold getUserPlaylists
      split
      · exact ⟨auth, ls, rfl⟩
      · cases h : playlistsBody auth ls now outcome savedOutcome with
        | ok r =>
          have hitems := playlistsBody_failed auth ls now outcome savedOutcome hf r h
          obtain ⟨ri, ra, rl⟩ := r
          simp only at hitems
          subst hitems
          exact ⟨ra, rl, by simp [h]⟩
        | error e => exact ⟨auth, ls, by simp [h]⟩
  · exact getUserSavedTracks_failure auth ls now savedOutcome

/-- C10 witness: the concrete state with a network error on both
fetches. -/
theorem getUserPlaylists_never_throws_w :
    (∃ a2 l2, getUserPlaylists exAuth exLs 0 .networkError .networkError =
      .ok { items := [], auth := a2, ls := l2 }) ∧
    (getUserSavedTracks exAuth exLs 0 .networkError).value = none :=
  ⟨(getUserPlaylists_never_throws exAuth exLs 0 .networkError .networkError).2.2.1
     (Or.inr rfl),
   (getUserPlaylists_never_throws exAuth exLs 0 .networkError .networkError).2.2.2
     (Or.inr rfl)⟩
